import Mathlib

/-!
Verification of the metadata resolution and caching pipeline of
spotify-playlist-sifter (src/app/services/feature_store.py and
src/app/services/spotify_client.py), shallowly embedded in Lean.

JSON payloads are modelled by the inductive `Json` below (the code paths
under verification only produce and consume null, booleans, integers,
strings, arrays and objects; JSON fractional numbers do not occur on
them).  Python dicts are modelled as association lists with the first
binding of a key authoritative, matching `dict` insertion-order
semantics.  Python exceptions escaping a function are modelled by
`Except`; returning `.ok` models a normal return.
-/

/-- Semi-structured JSON document, as navigated by the Python code. -/
inductive Json where
  | null : Json
  | bool (b : Bool) : Json
  | int (n : Int) : Json
  | str (s : String) : Json
  | arr (xs : List Json) : Json
  | obj (kvs : List (String × Json)) : Json

/-- A JSON object body (a Python dict), in insertion order. -/
abbrev JObj := List (String × Json)

/-- Dict lookup: first binding wins (Python dicts have unique keys). -/
def jlookup : JObj → String → Option Json
  | [], _ => none
  | kv :: rest, k => if kv.1 = k then some kv.2 else jlookup rest k

/-- `Json.isArr` tests for an array, mirroring `isinstance(x, list)`. -/
def Json.isArr : Json → Bool
  | .arr _ => true
  | _ => false

/-- `Json.isObj` tests for an object, mirroring `isinstance(x, dict)`. -/
def Json.isObj : Json → Bool
  | .obj _ => true
  | _ => false

/-- `d.get(k)` on a dict: the stored value, or Python `None` when absent. -/
def pyGet (kvs : JObj) (k : String) : Json :=
  (jlookup kvs k).getD .null

/-- `d.get(k, default)` on a dict. -/
def pyGetD (kvs : JObj) (k : String) (dflt : Json) : Json :=
  (jlookup kvs k).getD dflt

/-- Python `x == s` for a JSON value `x` and string literal `s`:
true exactly when `x` is that very string. -/
def jsonEqStr (j : Json) (s : String) : Bool :=
  match j with
  | .str t => t = s
  | _ => false

/-- Python truthiness of a JSON value (`if x:`): `None`, `False`, `0`,
empty string, empty list and empty dict are falsy. -/
def pyTruthy : Json → Bool
  | .null => false
  | .bool b => b
  | .int n => n ≠ 0
  | .str s => s ≠ ""
  | .arr xs => !xs.isEmpty
  | .obj kvs => !kvs.isEmpty

/-- Characters Python `str.strip()` removes (ASCII whitespace; the rarer
Unicode whitespace code points do not occur in the data under test). -/
def isPySpace (c : Char) : Bool :=
  c = ' ' || c = '\t' || c = '\n' || c = '\r' || c = '\x0b' || c = '\x0c'

/-- Drop leading whitespace from a char list. -/
def dropPySpace : List Char → List Char
  | [] => []
  | c :: rest => if isPySpace c then dropPySpace rest else c :: rest

/-- Python `s.strip()`: remove leading and trailing whitespace. -/
def pyStrip (s : String) : String :=
  ⟨((dropPySpace s.data).reverse |> dropPySpace).reverse⟩

/-- ASCII uppercasing of one character (the identifiers normalized by the
code — industry recording codes — are ASCII). -/
def asciiUpper (c : Char) : Char :=
  if 'a' ≤ c && c ≤ 'z' then Char.ofNat (c.toNat - 32) else c

/-- ASCII lowercasing of one character. -/
def asciiLower (c : Char) : Char :=
  if 'A' ≤ c && c ≤ 'Z' then Char.ofNat (c.toNat + 32) else c

/-- Python `s.upper()` (ASCII model). -/
def pyUpper (s : String) : String :=
  ⟨s.data.map asciiUpper⟩

/-- Python `s.casefold()` (ASCII model; full Unicode case folding only
differs on exotic characters). -/
def pyCasefold (s : String) : String :=
  ⟨s.data.map asciiLower⟩

/-- Accumulate decimal digits into a number. -/
def digitsToNat : List Char → Nat → Nat
  | [], acc => acc
  | c :: rest, acc => digitsToNat rest (acc * 10 + (c.toNat - 48))

/-- Parse a non-empty all-digit char list, else fail. -/
def pyParseNat (l : List Char) : Option Nat :=
  if !l.isEmpty && l.all Char.isDigit then some (digitsToNat l 0) else none

/-- Python `int(x)` coercion on a JSON value: integers pass through,
booleans become 0/1, strings are parsed as optionally signed decimal
numerals after stripping whitespace (digit-group underscores are not
modelled), everything else raises `TypeError`, modelled as `none`. -/
def pyToInt (j : Json) : Option Int :=
  match j with
  | .int n => some n
  | .bool b => some (if b then 1 else 0)
  | .str s =>
    match (pyStrip s).data with
    | '-' :: rest => (pyParseNat rest).map (fun n => -(n : Int))
    | '+' :: rest => (pyParseNat rest).map (fun n => (n : Int))
    | t => (pyParseNat t).map (fun n => (n : Int))
  | _ => none

/-- The `try: return int(x) except (TypeError, ValueError): return 0`
idiom used by `_recording_score` and `_count_value`. -/
def pyIntOr0 (j : Json) : Int :=
  (pyToInt j).getD 0

mutual
/-- Python `repr` of a JSON value, used by `str()` on non-string values
(inside `_pick_best_recording`'s comparison key).  String escaping
inside `repr` is not modelled beyond quoting. -/
def reprJson : Json → String
  | .null => "None"
  | .bool true => "True"
  | .bool false => "False"
  | .int n => toString n
  | .str s => "\x27" ++ s ++ "\x27"
  | .arr xs => "[" ++ reprJsonList xs ++ "]"
  | .obj kvs => "\x7b" ++ reprJsonObj kvs ++ "\x7d"

/-- Comma-separated `repr` of array elements. -/
def reprJsonList : List Json → String
  | [] => ""
  | [j] => reprJson j
  | j :: rest => reprJson j ++ ", " ++ reprJsonList rest

/-- Comma-separated `repr` of dict entries. -/
def reprJsonObj : List (String × Json) → String
  | [] => ""
  | [kv] => "\x27" ++ kv.1 ++ "\x27: " ++ reprJson kv.2
  | kv :: rest => "\x27" ++ kv.1 ++ "\x27: " ++ reprJson kv.2 ++ ", " ++ reprJsonObj rest
end

/-- Python `str(x)` on a JSON value: strings unchanged, otherwise `repr`. -/
def pyStrOf : Json → String
  | .str s => s
  | j => reprJson j

/-- Strict code-point order on characters, as Python compares strings. -/
def charLt (a b : Char) : Bool :=
  decide (a.toNat < b.toNat)

/-- Lexicographic strict order on char lists (Python string `<`):
a proper prefix is smaller. -/
def charListLt : List Char → List Char → Bool
  | [], [] => false
  | [], _ :: _ => true
  | _ :: _, [] => false
  | a :: as, b :: bs =>
    if charLt a b then true
    else if a = b then charListLt as bs
    else false

/-- Python string `<` (lexicographic by code point). -/
def pyStrLt (a b : String) : Bool :=
  charListLt a.data b.data

/-! ## src/app/services/spotify_client.py -/

/-- `isinstance(x, str) and x` on an optional JSON value: the string when
present and non-empty. -/
def strTruthy : Option Json → Option String
  | some (.str s) => if s = "" then none else some s
  | _ => none

/-- The typed provider error `SpotifyClientError(status_code, message,
auth_error)`. -/
structure SpotifyClientError where
  status_code : Int
  message : String
  auth_error : Bool := false

/-- `_extract_error_message`: decode the provider error envelope, looking
for a nested error object message, `error_description`, a string-valued
`error`, `detail`, then `message`, in that priority order. -/
def _extract_error_message (payload : Option Json) (fallback : String) : String :=
  match payload with
  | some (.obj kvs) =>
    let nested_error := jlookup kvs "error"
    let nested_message : Option String :=
      match nested_error with
      | some (.obj nkvs) => strTruthy (jlookup nkvs "message")
      | _ => none
    let nested_str : Option String :=
      match nested_error with
      | some (.str s) => if s = "" then none else some s
      | _ => none
    (nested_message <|> strTruthy (jlookup kvs "error_description") <|>
      nested_str <|> strTruthy (jlookup kvs "detail") <|>
      strTruthy (jlookup kvs "message")).getD fallback
  | _ => fallback

/-- The `HTTPError` branch of `_spotify_request_json` (lines 76-90):
build the typed error from the HTTP status code and the decoded error
body (`none` models an unparseable or empty body).  Only status 401 is
tagged `auth_error := true`. -/
def _spotify_http_error (code : Int) (payload : Option Json) : SpotifyClientError :=
  if code = 401 then
    { status_code := code, message := _extract_error_message payload "Unauthorized Spotify token",
      auth_error := true }
  else
    { status_code := code, message := _extract_error_message payload "Spotify API request failed" }

/-- The `SpotifyClientError(status_code=401, message="Not authorized",
auth_error=True)` value raised by the session adapter. -/
def notAuthorizedError : SpotifyClientError :=
  { status_code := 401, message := "Not authorized", auth_error := true }

/-- Observable side effects of `_request_for_session` on the token store
and the network, in execution order. -/
inductive SessionEffect where
  | attempt (access_token : String)
  | refreshCall (refresh_token : String)
  | storeTokens (token_data : JObj)
  | clearTokens

/-- Python `{**a, **b}`: keys of `a` in order with values overridden by
`b`, followed by keys only in `b`, in order. -/
def mergeDicts (a b : JObj) : JObj :=
  a.map (fun kv => (kv.1, (jlookup b kv.1).getD kv.2)) ++
    b.filter (fun kv => (jlookup a kv.1).isNone)

/-- Python `d[k] = v`: overwrite in place when the key exists, else
append the new binding. -/
def setKey (d : JObj) (k : String) (v : Json) : JObj :=
  if (jlookup d k).isSome then
    d.map (fun kv => if kv.1 = k then (k, v) else kv)
  else d ++ [(k, v)]

/-- The merged token set persisted after a refresh (lines 349-351): new
fields overwrite old, and the prior refresh token is restored when the
refresh response carries no usable one. -/
def _merged_token_set (token_data refreshed_tokens : JObj) (refresh_token : String) : JObj :=
  let merged := mergeDicts token_data refreshed_tokens
  if (strTruthy (jlookup merged "refresh_token")).isNone then
    setKey merged "refresh_token" (.str refresh_token)
  else merged

/-- `_request_for_session`: the session-token adapter.  `tokens` is the
token store's answer for the session (`none` models both a missing entry
and the store raising nothing — `get_tokens` returns `None`), `request_fn`
gives the outcome of the wrapped request for a given bearer token, and
`refresh_fn` the outcome of `_refresh_access_token` for a given refresh
token.  Returns the adapter's outcome plus the ordered trace of request
attempts and token-store effects. -/
def _request_for_session (tokens : Option JObj)
    (request_fn : String → Except SpotifyClientError Json)
    (refresh_fn : String → Except SpotifyClientError JObj) :
    Except SpotifyClientError Json × List SessionEffect :=
  match tokens with
  | none => (.error notAuthorizedError, [])
  | some token_data =>
    if token_data.isEmpty then (.error notAuthorizedError, []) else
    match strTruthy (jlookup token_data "access_token") with
    | none => (.error notAuthorizedError, [.clearTokens])
    | some access_token =>
      match request_fn access_token with
      | .ok v => (.ok v, [.attempt access_token])
      | .error e =>
        if e.status_code ≠ 401 then (.error e, [.attempt access_token]) else
        match strTruthy (jlookup token_data "refresh_token") with
        | none => (.error notAuthorizedError, [.attempt access_token, .clearTokens])
        | some refresh_token =>
          match refresh_fn refresh_token with
          | .error re => (.error re, [.attempt access_token, .refreshCall refresh_token])
          | .ok refreshed_tokens =>
            let merged := _merged_token_set token_data refreshed_tokens refresh_token
            let fx0 : List SessionEffect :=
              [.attempt access_token, .refreshCall refresh_token, .storeTokens merged]
            match strTruthy (jlookup merged "access_token") with
            | none => (.error notAuthorizedError, fx0 ++ [.clearTokens])
            | some refreshed_access_token =>
              match request_fn refreshed_access_token with
              | .ok v => (.ok v, fx0 ++ [.attempt refreshed_access_token])
              | .error e2 =>
                if e2.status_code = 401 then
                  (.error notAuthorizedError, fx0 ++ [.attempt refreshed_access_token, .clearTokens])
                else (.error e2, fx0 ++ [.attempt refreshed_access_token])

/-! ## src/app/services/feature_store.py

The SQLite store is modelled by passing each stage the rows its two
`SELECT`s observe (the cache can change between them), and by returning
the write the stage performs (`CacheOp`) instead of executing it.  The
external HTTP calls are modelled by passing in their outcome; the third
component of each stage's result records whether that outcome was
consumed, i.e. whether an external call was made at all. -/

def MAPPING_TTL_SECONDS : Int := 30 * 24 * 60 * 60
def TRACK_FEATURES_TTL_SECONDS : Int := 7 * 24 * 60 * 60
def NEGATIVE_TTL_SECONDS : Int := 6 * 60 * 60
def ERROR_BACKOFF_SECONDS : Int := 15 * 60

/-- `_MusicBrainzLookupError(status_code, message)`; `status_code` is
`None` for transport-level and malformed-body failures. -/
structure _MusicBrainzLookupError where
  status_code : Option Int
  message : String

/-- What a MusicBrainz request can raise into the pipeline: the typed
lookup error, or the `RuntimeError` from `_musicbrainz_user_agent` when
the required `MUSICBRAINZ_USER_AGENT` configuration is missing. -/
inductive MBFetchError where
  | lookupError (e : _MusicBrainzLookupError)
  | runtimeError (message : String)

/-- One cache row: resolved value, `updated_at`, `expires_at`,
`backoff_until` (the key is implicit — rows are read per key). -/
structure CacheRow (α : Type) where
  value : α
  updated_at : Int
  expires_at : Int
  backoff_until : Int

/-- The single write a stage performs on its table: nothing, a
`backoff_until` update (value and expiry untouched), or an upsert
(which also resets `backoff_until` to 0). -/
inductive CacheOp (α : Type) where
  | noWrite
  | setBackoff (backoff_until : Int)
  | upsert (value : α) (updated_at expires_at : Int)

/-- `_is_cache_usable`: a missing row is never usable; an existing row is
usable iff `now <= expires_at or now <= backoff_until`. -/
def _is_cache_usable {α : Type} (row : Option (CacheRow α)) (now : Int) : Bool :=
  match row with
  | none => false
  | some r => decide (now ≤ r.expires_at) || decide (now ≤ r.backoff_until)

/-- `_normalize_isrc`: trim and uppercase. -/
def _normalize_isrc (isrc : String) : String :=
  pyUpper (pyStrip isrc)

/-- `_normalize_mbid`: trim. -/
def _normalize_mbid (mbid : String) : String :=
  pyStrip mbid

/-- `_recording_score`: `int(recording.get("score", 0))`, 0 on failure. -/
def _recording_score (recording : JObj) : Int :=
  pyIntOr0 (pyGetD recording "score" (.int 0))

/-- `_count_value`: `int(item.get("count", 0))`, 0 on failure. -/
def _count_value (item : JObj) : Int :=
  pyIntOr0 (pyGetD item "count" (.int 0))

/-- The comparison key `(_recording_score(c), str(c.get("id", "")))`. -/
def recordingSortKey (c : JObj) : Int × String :=
  (_recording_score c, pyStrOf (pyGetD c "id" (.str "")))

/-- Python `<` on such keys: by score, then by id string. -/
def sortKeyLt (a b : Int × String) : Bool :=
  decide (a.1 < b.1) || (decide (a.1 = b.1) && pyStrLt a.2 b.2)

/-- `isinstance(item, dict)` filter step. -/
def asObj : Json → Option JObj
  | .obj kvs => some kvs
  | _ => none

/-- The scan `for candidate in candidates[1:]` keeping the strictly
larger comparison key. -/
def bestFold (c0 : JObj) (rest : List JObj) : JObj :=
  rest.foldl
    (fun best candidate =>
      if sortKeyLt (recordingSortKey best) (recordingSortKey candidate) then candidate else best)
    c0

/-- The `if expected_mbid: for recording in candidates: ...` scan of
`_pick_best_recording`: the first candidate whose `id` equals the
(truthy) expected identity. -/
def pickExactMatch (candidates : List JObj) (expected_mbid : Option String) : Option JObj :=
  match expected_mbid with
  | some e =>
    if e = "" then none
    else candidates.find? (fun c => jsonEqStr (pyGet c "id") e)
  | none => none

/-- `_pick_best_recording`: keep dict candidates; on an expected
identity, return the first exact id match when present; otherwise the
candidate maximizing `(score, id)` (first wins on fully equal keys). -/
def _pick_best_recording (recordings : List Json) (expected_mbid : Option String) : Option JObj :=
  match recordings.filterMap asObj with
  | [] => none
  | c0 :: rest =>
    match pickExactMatch (c0 :: rest) expected_mbid with
    | some c => some c
    | none => some (bestFold c0 rest)

/-- `_extract_isrc_from_track`: the `external_ids.isrc` field, required
to be a string that is non-empty after normalization. -/
def _extract_isrc_from_track (track_payload : JObj) : Option String :=
  match jlookup track_payload "external_ids" with
  | some (.obj external_ids) =>
    match jlookup external_ids "isrc" with
    | some (.str raw_isrc) =>
      let normalized_isrc := _normalize_isrc raw_isrc
      if normalized_isrc = "" then none else some normalized_isrc
    | _ => none
  | _ => none

/-- `get_isrc_from_spotify_track` (and its `_for_session` twin, whose
body is identical with the session-scoped fetch): stage 1 of the
pipeline.  `fetch` is the outcome of `get_track`; a `SpotifyClientError`
is caught, every other result is a dict (the client raises otherwise). -/
def get_isrc_from_spotify_track (spotify_track_id : String)
    (cached_row : Option (CacheRow (Option String))) (now : Int)
    (fetch : Except SpotifyClientError JObj)
    (cached_row2 : Option (CacheRow (Option String))) (now2 : Int) :
    Except SpotifyClientError (Option String) × CacheOp (Option String) × Bool :=
  let safe_track_id := pyStrip spotify_track_id
  if safe_track_id = "" then (.ok none, .noWrite, false)
  else if _is_cache_usable cached_row now then
    (.ok (cached_row.bind CacheRow.value), .noWrite, false)
  else
    match fetch with
    | .error _ =>
      match cached_row2 with
      | some r => (.ok r.value, .setBackoff (now2 + ERROR_BACKOFF_SECONDS), true)
      | none => (.ok none, .noWrite, true)
    | .ok track_payload =>
      let fetched_isrc := _extract_isrc_from_track track_payload
      let ttl_seconds := if fetched_isrc.isSome then MAPPING_TTL_SECONDS else NEGATIVE_TTL_SECONDS
      (.ok fetched_isrc, .upsert fetched_isrc now2 (now2 + ttl_seconds), true)

/-- `mbid_from_isrc`: stage 2.  `fetch` is the outcome of the
MusicBrainz ISRC search (`_musicbrainz_request_json`), whose
`_MusicBrainzLookupError` and `RuntimeError` are both caught. -/
def mbid_from_isrc (isrc : String)
    (cached_row : Option (CacheRow (Option String))) (now : Int)
    (fetch : Except MBFetchError JObj)
    (cached_row2 : Option (CacheRow (Option String))) (now2 : Int) :
    Except MBFetchError (Option String) × CacheOp (Option String) × Bool :=
  let normalized_isrc := _normalize_isrc isrc
  if normalized_isrc = "" then (.ok none, .noWrite, false)
  else if _is_cache_usable cached_row now then
    (.ok (cached_row.bind CacheRow.value), .noWrite, false)
  else
    match fetch with
    | .error _ =>
      match cached_row2 with
      | some r => (.ok r.value, .setBackoff (now2 + ERROR_BACKOFF_SECONDS), true)
      | none => (.ok none, .noWrite, true)
    | .ok payload =>
      let fetched_mbid : Option String :=
        match jlookup payload "recordings" with
        | some (.arr recordings) =>
          match _pick_best_recording recordings none with
          | some best_recording =>
            if best_recording.isEmpty then none
            else
              match jlookup best_recording "id" with
              | some (.str raw_mbid) =>
                if pyStrip raw_mbid = "" then none else some (_normalize_mbid raw_mbid)
              | _ => none
          | none => none
        | _ => none
      let ttl_seconds := if fetched_mbid.isSome then MAPPING_TTL_SECONDS else NEGATIVE_TTL_SECONDS
      (.ok fetched_mbid, .upsert fetched_mbid now2 (now2 + ttl_seconds), true)

/-- One produced tag entry `{name, count, source}`. -/
structure TagEntry where
  name : String
  count : Int
  source : String

/-- One release summary `{id, title, date}`, each field `None` unless a
string. -/
structure ReleaseSummary where
  id : Option String
  title : Option String
  date : Option String

/-- The metadata object built by `_extract_track_features`. -/
structure TrackMetadata where
  mbid : Option String
  title : Option String
  length_ms : Option Int
  disambiguation : Option String
  artists : List String
  releases : List ReleaseSummary

/-- `isinstance(x, list)` guard: the items when a list, else nothing. -/
def listItems : Option Json → List Json
  | some (.arr items) => items
  | _ => []

/-- `x if isinstance(x, str) else None`. -/
def asStr : Option Json → Option String
  | some (.str s) => some s
  | _ => none

/-- `x if isinstance(x, int) else None` (booleans, a Python `int`
subtype, do not occur as length values in the payloads modelled). -/
def asInt : Option Json → Option Int
  | some (.int n) => some n
  | _ => none

/-- The tag/genre loop of `_extract_track_features`: skip non-dicts and
blank names, append `{stripped name, coerced count, source}`. -/
def tagLoop (source : String) : List Json → List TagEntry → List TagEntry
  | [], acc => acc
  | item :: rest, acc =>
    match item with
    | .obj kvs =>
      match jlookup kvs "name" with
      | some (.str name) =>
        if pyStrip name = "" then tagLoop source rest acc
        else tagLoop source rest (acc ++ [⟨pyStrip name, _count_value kvs, source⟩])
      | _ => tagLoop source rest acc
    | _ => tagLoop source rest acc

/-- The `if isinstance(name, str) and name.strip(): append(name.strip())`
fragment, used for both the flat and the nested artist name. -/
def nameAppend (o : Option Json) (acc : List String) : List String :=
  match o with
  | some (.str name) => if pyStrip name = "" then acc else acc ++ [pyStrip name]
  | _ => acc

/-- The artist-credit loop: per credit entry append the flat `name`
field, then the nested `artist.name` field, when non-blank strings. -/
def creditLoop : List Json → List String → List String
  | [], acc => acc
  | item :: rest, acc =>
    match item with
    | .obj kvs =>
      let acc1 := nameAppend (jlookup kvs "name") acc
      let acc2 :=
        match jlookup kvs "artist" with
        | some (.obj artist) => nameAppend (jlookup artist "name") acc1
        | _ => acc1
      creditLoop rest acc2
    | _ => creditLoop rest acc

/-- The seen-set dedup loop over artist names (casefolded membership,
first-seen order preserved). -/
def dedupLoop : List String → List String × List String → List String × List String
  | [], acc => acc
  | artist_name :: rest, (seen, out) =>
    let folded := pyCasefold artist_name
    if seen.contains folded then dedupLoop rest (seen, out)
    else dedupLoop rest (folded :: seen, out ++ [artist_name])

/-- The releases loop: skip non-dicts, keep `{id, title, date}` with
non-string fields nulled. -/
def releaseLoop : List Json → List ReleaseSummary → List ReleaseSummary
  | [], acc => acc
  | item :: rest, acc =>
    match item with
    | .obj kvs =>
      releaseLoop rest
        (acc ++ [⟨asStr (jlookup kvs "id"), asStr (jlookup kvs "title"), asStr (jlookup kvs "date")⟩])
    | _ => releaseLoop rest acc

/-- `_extract_track_features`: tags then genres, artists deduplicated,
release summaries, scalar metadata fields type-checked. -/
def _extract_track_features (recording : JObj) : List TagEntry × TrackMetadata :=
  let tags0 := tagLoop "tag" (listItems (jlookup recording "tags")) []
  let tags := tagLoop "genre" (listItems (jlookup recording "genres")) tags0
  let artist_names := creditLoop (listItems (jlookup recording "artist-credit")) []
  let unique_artists := (dedupLoop artist_names ([], [])).2
  let releases_summary := releaseLoop (listItems (jlookup recording "releases")) []
  (tags,
    { mbid := asStr (jlookup recording "id"),
      title := asStr (jlookup recording "title"),
      length_ms := asInt (jlookup recording "length"),
      disambiguation := asStr (jlookup recording "disambiguation"),
      artists := unique_artists,
      releases := releases_summary })

/-- JSON encoding of one tag entry, as `json.dumps` serializes it. -/
def encodeTagEntry (t : TagEntry) : Json :=
  .obj [("name", .str t.name), ("count", .int t.count), ("source", .str t.source)]

/-- JSON encoding of the tag list. -/
def encodeTags (ts : List TagEntry) : Json :=
  .arr (ts.map encodeTagEntry)

/-- Nullable string to JSON. -/
def encodeOptStr : Option String → Json
  | some s => .str s
  | none => .null

/-- JSON encoding of one release summary. -/
def encodeRelease (r : ReleaseSummary) : Json :=
  .obj [("id", encodeOptStr r.id), ("title", encodeOptStr r.title), ("date", encodeOptStr r.date)]

/-- JSON encoding of the metadata object. -/
def encodeMetadata (m : TrackMetadata) : Json :=
  .obj [("mbid", encodeOptStr m.mbid),
        ("title", encodeOptStr m.title),
        ("length_ms", match m.length_ms with | some n => .int n | none => .null),
        ("disambiguation", encodeOptStr m.disambiguation),
        ("artists", .arr (m.artists.map .str)),
        ("releases", .arr (m.releases.map encodeRelease))]

/-- A stored `track_features` row's two TEXT cells, each as the outcome
of `json.loads` on it: `none` models a cell that is not valid JSON (or
not text at all).  The `json.dumps`/`json.loads` round trip on the
payloads written by this module is modelled as the identity. -/
structure FeaturesRowData where
  tags_json : Option Json
  metadata_json : Option Json

/-- The sentinel row persisted for a negative features result:
`tags = []`, `metadata = {"__missing__": true}`. -/
def missingSentinel : FeaturesRowData :=
  ⟨some (.arr []), some (.obj [("__missing__", .bool true)])⟩

/-- Field access on a JSON value known to be an object. -/
def jGetField : Json → String → Option Json
  | .obj kvs, k => jlookup kvs k
  | _, _ => none

/-- Python `x is True` on an optional JSON value. -/
def isPyTrue : Option Json → Bool
  | some (.bool true) => true
  | _ => false

/-- `_decode_track_features_row`: `none` when either cell fails to
parse; a non-list tags value is replaced by `[]` and a non-dict metadata
value by an empty dict; the `__missing__` sentinel decodes to `none`. -/
def _decode_track_features_row (r : FeaturesRowData) : Option (Json × Json) :=
  match r.tags_json, r.metadata_json with
  | some tags0, some metadata0 =>
    let tags := if tags0.isArr then tags0 else .arr []
    let metadata := if metadata0.isObj then metadata0 else .obj []
    if isPyTrue (jGetField metadata "__missing__") then none
    else some (tags, metadata)
  | _, _ => none

/-- Handling of a successfully fetched fallback payload (lines 572-579):
a recordings array (even empty) feeds best-candidate selection with the
expected identity; otherwise a 404 or status-less direct-lookup failure
(or none at all, or a `RuntimeError`) yields not-found, and any other
definitive direct-lookup failure status is re-raised. -/
def _fallback_payload_result (mbid : String) (primary_error : Option MBFetchError)
    (fallback_payload : JObj) : Except MBFetchError (Option JObj) :=
  match jlookup fallback_payload "recordings" with
  | some (.arr recordings) => .ok (_pick_best_recording recordings (some mbid))
  | _ =>
    match primary_error with
    | some (.lookupError e) =>
      match e.status_code with
      | some s => if s = 404 then .ok none else .error (.lookupError e)
      | none => .ok none
    | _ => .ok none

/-- The fallback half of `_lookup_recording_by_mbid` (lines 563-579),
entered when the direct lookup failed (`primary_error` set) or returned
a payload without a string `id`. -/
def _lookup_fallback (mbid : String) (primary_error : Option MBFetchError) :
    Except MBFetchError JObj → Except MBFetchError (Option JObj)
  | .error fe => .error (primary_error.getD fe)
  | .ok fallback_payload => _fallback_payload_result mbid primary_error fallback_payload

/-- `_lookup_recording_by_mbid`: direct lookup, then search-by-identity
fallback with the expected identity set.  `primary` and `fallback` are
the outcomes of the two MusicBrainz requests. -/
def _lookup_recording_by_mbid (mbid : String)
    (primary : Except MBFetchError JObj)
    (fallback : Except MBFetchError JObj) : Except MBFetchError (Option JObj) :=
  match primary with
  | .ok primary_payload =>
    match jlookup primary_payload "id" with
    | some (.str _) => .ok (some primary_payload)
    | _ => _lookup_fallback mbid none fallback
  | .error e => _lookup_fallback mbid (some e) fallback

/-- `get_track_features`: stage 3.  `fetch` is the outcome of
`_lookup_recording_by_mbid`; its `_MusicBrainzLookupError` and
`RuntimeError` are both caught.  The fresh-result value is returned (and
stored) in its JSON encoding, the dumps/loads round trip being modelled
as the identity. -/
def get_track_features (mbid : String)
    (cached_row : Option (CacheRow FeaturesRowData)) (now : Int)
    (fetch : Except MBFetchError (Option JObj))
    (cached_row2 : Option (CacheRow FeaturesRowData)) (now2 : Int) :
    Except MBFetchError (Option (Json × Json)) × CacheOp FeaturesRowData × Bool :=
  let normalized_mbid := _normalize_mbid mbid
  if normalized_mbid = "" then (.ok none, .noWrite, false)
  else if _is_cache_usable cached_row now then
    (.ok (cached_row.bind (fun r => _decode_track_features_row r.value)), .noWrite, false)
  else
    match fetch with
    | .error _ =>
      match cached_row2 with
      | some r =>
        (.ok (_decode_track_features_row r.value), .setBackoff (now2 + ERROR_BACKOFF_SECONDS), true)
      | none => (.ok none, .noWrite, true)
    | .ok recordingOpt =>
      let extracted : Option (List TagEntry × TrackMetadata) :=
        match recordingOpt with
        | some recording =>
          if recording.isEmpty then none else some (_extract_track_features recording)
        | none => none
      match extracted with
      | none => (.ok none, .upsert missingSentinel now2 (now2 + NEGATIVE_TTL_SECONDS), true)
      | some (fetched_tags, fetched_metadata) =>
        (.ok (some (encodeTags fetched_tags, encodeMetadata fetched_metadata)),
          .upsert ⟨some (encodeTags fetched_tags), some (encodeMetadata fetched_metadata)⟩
            now2 (now2 + TRACK_FEATURES_TTL_SECONDS), true)

/-! ## Spec-side restatements

These definitions follow the wording of the specification (section 4.4,
extraction rules) rather than the Python control flow; the refinement
claim C9 compares them with `_extract_track_features`. -/

/-- Spec wording: each tags/genres item maps to `{name (trimmed,
non-empty required), count (coerced to integer, default 0 on
non-numeric), source}`, non-conforming items dropped. -/
def specTagOf (source : String) (item : Json) : Option TagEntry :=
  match item with
  | .obj kvs =>
    match jlookup kvs "name" with
    | some (.str name) =>
      if pyStrip name = "" then none
      else some ⟨pyStrip name, _count_value kvs, source⟩
    | _ => none
  | _ => none

/-- Spec wording: the tag list is the union of the `tags` and `genres`
arrays, in that order, with sources `tag` and `genre` respectively. -/
def specTags (recording : JObj) : List TagEntry :=
  (listItems (jlookup recording "tags")).filterMap (specTagOf "tag") ++
    (listItems (jlookup recording "genres")).filterMap (specTagOf "genre")

/-- Spec wording: a trimmed, non-empty name as a singleton list. -/
def nameList (o : Option Json) : List String :=
  match o with
  | some (.str name) => if pyStrip name = "" then [] else [pyStrip name]
  | _ => []

/-- Spec wording: the artist names drawn from one credit entry — the
flat `name` field and the nested `artist.name` field. -/
def specCreditNames (item : Json) : List String :=
  match item with
  | .obj kvs =>
    nameList (jlookup kvs "name") ++
      (match jlookup kvs "artist" with
       | some (.obj artist) => nameList (jlookup artist "name")
       | _ => [])
  | _ => []

/-- Spec wording: case-insensitive deduplication preserving first-seen
order, given the set of already-seen casefolded names. -/
def specDedupCI (seen : List String) : List String → List String
  | [] => []
  | n :: rest =>
    if seen.contains (pyCasefold n) then specDedupCI seen rest
    else n :: specDedupCI (pyCasefold n :: seen) rest

/-- Spec wording: the deduplicated artist-name list over all credit
entries. -/
def specArtists (recording : JObj) : List String :=
  specDedupCI [] ((listItems (jlookup recording "artist-credit")).flatMap specCreditNames)

/-! Sanity checks reproducing the repository's own test data. -/

example :
    _pick_best_recording
      [.obj [("id", .str "00000000-0000-0000-0000-000000000001"), ("score", .int 80)],
       .obj [("id", .str "00000000-0000-0000-0000-000000000002"), ("score", .int 100)]] none =
      some [("id", .str "00000000-0000-0000-0000-000000000002"), ("score", .int 100)] := rfl

example : _normalize_isrc "usabc1234567" = "USABC1234567" := by decide

example :
    _extract_isrc_from_track [("id", .str "track-123"), ("external_ids", .obj [])] = none := by
  decide

example :
    (_extract_track_features
      [("id", .str "mbid-1"),
       ("title", .str "Song A"),
       ("length", .int 201000),
       ("artist-credit", .arr [.obj [("name", .str "Artist A")]]),
       ("tags", .arr [.obj [("name", .str "indie"), ("count", .int 5)]]),
       ("genres", .arr [.obj [("name", .str "rock"), ("count", .int 2)]])]).1 =
      [⟨"indie", 5, "tag"⟩, ⟨"rock", 2, "genre"⟩] := rfl

example :
    (_extract_track_features
      [("artist-credit", .arr [.obj [("name", .str "Artist A"),
        ("artist", .obj [("name", .str "artist a")])]])]).2.artists = ["Artist A"] := by
  decide

example : pyToInt (.str " 80 ") = some 80 := by decide

/-! ## Order lemmas for the candidate comparison key -/

theorem char_eq_of_toNat {a b : Char} (h : a.toNat = b.toNat) : a = b := by
  apply Char.eq_of_val_eq
  unfold Char.toNat at h
  exact UInt32.toNat.inj h

theorem str_eq_of_data {a b : String} (h : a.data = b.data) : a = b := by
  cases a; cases b; simp only at h; rw [h]

theorem charLt_irrefl (a : Char) : charLt a a = false := by
  simp [charLt]

theorem charLt_trans {a b c : Char} (h1 : charLt a b = true) (h2 : charLt b c = true) :
    charLt a c = true := by
  simp only [charLt, decide_eq_true_eq] at *
  omega

theorem charLt_eq_of_not {a b : Char} (h1 : charLt a b = false) (h2 : charLt b a = false) :
    a = b := by
  simp only [charLt, decide_eq_false_iff_not, Nat.not_lt] at h1 h2
  exact char_eq_of_toNat (Nat.le_antisymm h2 h1)

theorem charListLt_irrefl (l : List Char) : charListLt l l = false := by
  induction l with
  | nil => rfl
  | cons a as ih => simp [charListLt, charLt_irrefl, ih]

theorem charListLt_trans {x y z : List Char} (hxy : charListLt x y = true)
    (hyz : charListLt y z = true) : charListLt x z = true := by
  induction x generalizing y z with
  | nil =>
    cases y with
    | nil => simp [charListLt] at hxy
    | cons b bs =>
      cases z with
      | nil => simp [charListLt] at hyz
      | cons c cs => simp [charListLt]
  | cons a as ih =>
    cases y with
    | nil => simp [charListLt] at hxy
    | cons b bs =>
      cases z with
      | nil => simp [charListLt] at hyz
      | cons c cs =>
        simp only [charListLt] at hxy hyz ⊢
        by_cases hab : charLt a b = true
        · by_cases hbc : charLt b c = true
          · simp [charLt_trans hab hbc]
          · simp only [hbc, if_false, Bool.false_eq_true] at hyz
            by_cases hbceq : b = c
            · subst hbceq; simp [hab]
            · simp [hbceq] at hyz
        · simp only [hab, if_false, Bool.false_eq_true] at hxy
          by_cases habeq : a = b
          · subst habeq
            simp only [if_pos rfl] at hxy
            by_cases hbc : charLt a c = true
            · simp [hbc]
            · simp only [hbc, if_false, Bool.false_eq_true] at hyz ⊢
              by_cases hbceq : a = c
              · subst hbceq
                simp only [if_pos rfl] at hyz ⊢
                exact ih hxy hyz
              · simp [hbceq] at hyz
          · simp [habeq] at hxy

theorem charListLt_eq_of_not {x y : List Char} (h1 : charListLt x y = false)
    (h2 : charListLt y x = false) : x = y := by
  induction x generalizing y with
  | nil =>
    cases y with
    | nil => rfl
    | cons b bs => simp [charListLt] at h1
  | cons a as ih =>
    cases y with
    | nil => simp [charListLt] at h2
    | cons b bs =>
      simp only [charListLt] at h1 h2
      have hab : charLt a b = false := by
        by_cases h : charLt a b = true
        · simp [h] at h1
        · simpa using h
      have hba : charLt b a = false := by
        by_cases h : charLt b a = true
        · simp [h] at h2
        · simpa using h
      have heq : a = b := charLt_eq_of_not hab hba
      subst heq
      simp only [hab, if_false, if_pos rfl, Bool.false_eq_true] at h1 h2
      rw [ih h1 h2]

theorem sortKeyLt_irrefl (k : Int × String) : sortKeyLt k k = false := by
  simp [sortKeyLt, pyStrLt, charListLt_irrefl]

theorem sortKeyLt_trans {a b c : Int × String} (h1 : sortKeyLt a b = true)
    (h2 : sortKeyLt b c = true) : sortKeyLt a c = true := by
  simp only [sortKeyLt, Bool.or_eq_true, Bool.and_eq_true, decide_eq_true_eq] at *
  rcases h1 with h1 | ⟨h1e, h1s⟩ <;> rcases h2 with h2 | ⟨h2e, h2s⟩
  · left; omega
  · left; omega
  · left; omega
  · right
    refine ⟨by omega, ?_⟩
    unfold pyStrLt at *
    exact charListLt_trans h1s h2s

theorem sortKeyLt_eq_of_not {a b : Int × String} (h1 : sortKeyLt a b = false)
    (h2 : sortKeyLt b a = false) : a = b := by
  simp only [sortKeyLt, Bool.or_eq_false_iff, Bool.and_eq_false_iff,
    decide_eq_false_iff_not] at h1 h2
  have hint : a.1 = b.1 := by omega
  have hs : a.2 = b.2 := by
    have hs1 : pyStrLt a.2 b.2 = false := by
      rcases h1.2 with h | h
      · exact absurd hint (by simpa using h)
      · exact h
    have hs2 : pyStrLt b.2 a.2 = false := by
      rcases h2.2 with h | h
      · exact absurd hint.symm (by simpa using h)
      · exact h
    unfold pyStrLt at hs1 hs2
    exact str_eq_of_data (charListLt_eq_of_not hs1 hs2)
  exact Prod.ext hint hs
example : pyToInt (.str "abc") = none := by decide
example : pyToInt (.str "-12") = some (-12) := by decide
example : pyStrLt "abc" "abd" = true := by decide
example : pyStrLt "ab" "abc" = true := by decide
example : pyStrOf (.int 5) = "5" := by decide
example : jsonEqStr (.str "x") "x" = true := by decide

/-! ## Characterization of `_pick_best_recording` -/

theorem bestFold_cons (c0 a : JObj) (rest : List JObj) :
    bestFold c0 (a :: rest) =
      bestFold (if sortKeyLt (recordingSortKey c0) (recordingSortKey a) then a else c0) rest :=
  rfl

theorem bestFold_mem (c0 : JObj) (rest : List JObj) : bestFold c0 rest ∈ c0 :: rest := by
  induction rest generalizing c0 with
  | nil => simp [bestFold]
  | cons a rest ih =>
    rw [bestFold_cons]
    by_cases hlt : sortKeyLt (recordingSortKey c0) (recordingSortKey a) = true
    · rw [if_pos hlt]
      rcases List.mem_cons.mp (ih a) with h | h
      · rw [h]; simp
      · simp [List.mem_cons_of_mem, h]
    · rw [if_neg hlt]
      rcases List.mem_cons.mp (ih c0) with h | h
      · rw [h]; simp
      · simp [List.mem_cons_of_mem, h]

theorem bestFold_not_lt (c0 : JObj) (rest : List JObj) :
    ∀ c ∈ c0 :: rest,
      sortKeyLt (recordingSortKey (bestFold c0 rest)) (recordingSortKey c) = false := by
  induction rest generalizing c0 with
  | nil =>
    intro c hc
    rcases List.mem_cons.mp hc with h | h
    · subst h; simp [bestFold, sortKeyLt_irrefl]
    · simp at h
  | cons a rest ih =>
    intro c hc
    rw [bestFold_cons]
    by_cases hlt : sortKeyLt (recordingSortKey c0) (recordingSortKey a) = true
    · rw [if_pos hlt]
      rcases List.mem_cons.mp hc with h | h
      · subst h
        rcases Bool.eq_false_or_eq_true
            (sortKeyLt (recordingSortKey (bestFold a rest)) (recordingSortKey c)) with hx | hx
        · exfalso
          have h2 := sortKeyLt_trans hx hlt
          have h3 := ih a a (List.mem_cons_self _ _)
          rw [h2] at h3
          simp at h3
        · exact hx
      · rcases List.mem_cons.mp h with h | h
        · subst h; exact ih _ _ (List.mem_cons_self _ _)
        · exact ih a c (List.mem_cons_of_mem _ h)
    · rw [if_neg hlt]
      have hlt' : sortKeyLt (recordingSortKey c0) (recordingSortKey a) = false := by
        simpa using hlt
      rcases List.mem_cons.mp hc with h | h
      · subst h; exact ih _ _ (List.mem_cons_self _ _)
      · rcases List.mem_cons.mp h with h | h
        · rcases Bool.eq_false_or_eq_true
              (sortKeyLt (recordingSortKey (bestFold c0 rest)) (recordingSortKey c)) with hx | hx
          · exfalso
            rw [← h] at hlt'
            have hbf0 := ih c0 c0 (List.mem_cons_self _ _)
            rcases Bool.eq_false_or_eq_true
                (sortKeyLt (recordingSortKey c) (recordingSortKey c0)) with hy | hy
            · have h2 := sortKeyLt_trans hx hy
              rw [h2] at hbf0
              simp at hbf0
            · have hk := sortKeyLt_eq_of_not hlt' hy
              rw [← hk] at hx
              rw [hx] at hbf0
              simp at hbf0
          · exact hx
        · exact ih c0 c (List.mem_cons_of_mem _ h)

theorem pick_best_none_spec (recordings : List Json)
    (hne : recordings.filterMap asObj ≠ []) :
    ∃ b, _pick_best_recording recordings none = some b ∧
      b ∈ recordings.filterMap asObj ∧
      ∀ c ∈ recordings.filterMap asObj,
        sortKeyLt (recordingSortKey b) (recordingSortKey c) = false := by
  unfold _pick_best_recording
  cases hcand : recordings.filterMap asObj with
  | nil => exact absurd hcand hne
  | cons c0 rest =>
    exact ⟨bestFold c0 rest, rfl, bestFold_mem c0 rest, bestFold_not_lt c0 rest⟩

theorem pick_best_exact (recordings : List Json) (e : String) (c : JObj) (he : e ≠ "")
    (hfind : (recordings.filterMap asObj).find? (fun c => jsonEqStr (pyGet c "id") e) = some c) :
    _pick_best_recording recordings (some e) = some c := by
  unfold _pick_best_recording
  cases hcand : recordings.filterMap asObj with
  | nil => rw [hcand] at hfind; simp at hfind
  | cons c0 rest =>
    rw [hcand] at hfind
    have hpe : pickExactMatch (c0 :: rest) (some e) = some c := by
      show (if e = "" then none
            else (c0 :: rest).find? (fun c => jsonEqStr (pyGet c "id") e)) = some c
      rw [if_neg he]
      exact hfind
    show (match pickExactMatch (c0 :: rest) (some e) with
          | some c => some c
          | none => some (bestFold c0 rest)) = some c
    rw [hpe]

theorem pick_best_no_match (recordings : List Json) (e : String) (he : e ≠ "")
    (hfind : (recordings.filterMap asObj).find? (fun c => jsonEqStr (pyGet c "id") e) = none) :
    _pick_best_recording recordings (some e) = _pick_best_recording recordings none := by
  unfold _pick_best_recording
  cases hcand : recordings.filterMap asObj with
  | nil => rfl
  | cons c0 rest =>
    rw [hcand] at hfind
    have hpe : pickExactMatch (c0 :: rest) (some e) = none := by
      show (if e = "" then none
            else (c0 :: rest).find? (fun c => jsonEqStr (pyGet c "id") e)) = none
      rw [if_neg he]
      exact hfind
    show (match pickExactMatch (c0 :: rest) (some e) with
          | some c => some c
          | none => some (bestFold c0 rest)) =
        (match pickExactMatch (c0 :: rest) (none : Option String) with
          | some c => some c
          | none => some (bestFold c0 rest))
    rw [hpe]
    rfl

theorem pick_best_perm (l₁ l₂ : List Json) (hp : l₁.Perm l₂)
    (hnd : ((l₁.filterMap asObj).map recordingSortKey).Nodup) :
    _pick_best_recording l₁ none = _pick_best_recording l₂ none := by
  have hpf : (l₁.filterMap asObj).Perm (l₂.filterMap asObj) := hp.filterMap asObj
  cases hcand : l₁.filterMap asObj with
  | nil =>
    have h2 : l₂.filterMap asObj = [] := by
      rw [hcand] at hpf
      exact (List.perm_nil.mp hpf.symm)
    unfold _pick_best_recording
    rw [hcand, h2]
  | cons c0 rest =>
    obtain ⟨b1, hb1, hb1mem, hb1max⟩ :=
      pick_best_none_spec l₁ (by rw [hcand]; exact List.cons_ne_nil _ _)
    have hne2 : l₂.filterMap asObj ≠ [] := by
      intro h
      rw [h] at hpf
      rw [List.perm_nil.mp hpf] at hcand
      exact List.noConfusion hcand
    obtain ⟨b2, hb2, hb2mem, hb2max⟩ := pick_best_none_spec l₂ hne2
    have hb2mem1 : b2 ∈ l₁.filterMap asObj := hpf.symm.subset hb2mem
    have hx := hb1max b2 hb2mem1
    have hy := hb2max b1 (hpf.subset hb1mem)
    have hk : recordingSortKey b1 = recordingSortKey b2 := sortKeyLt_eq_of_not hx hy
    have hb : b1 = b2 := List.inj_on_of_nodup_map hnd hb1mem hb2mem1 hk
    rw [hb1, hb2, hb]

/-! ## Loop lemmas for `_extract_track_features` (claim C9) -/

theorem nameAppend_eq (o : Option Json) (acc : List String) :
    nameAppend o acc = acc ++ nameList o := by
  cases o with
  | none => simp [nameAppend, nameList]
  | some v =>
    cases v <;> simp [nameAppend, nameList]
    case str s => by_cases hs : pyStrip s = "" <;> simp [hs]

theorem tagLoop_cons_eq (source : String) (item : Json) (rest : List Json)
    (acc : List TagEntry) :
    tagLoop source (item :: rest) acc =
      tagLoop source rest (acc ++ (specTagOf source item).toList) := by
  cases item with
  | obj kvs =>
    simp only [tagLoop, specTagOf]
    cases hname : jlookup kvs "name" with
    | none => simp
    | some v =>
      cases v <;> simp
      case str name => by_cases hs : pyStrip name = "" <;> simp [hs]
  | null => simp [tagLoop, specTagOf]
  | bool b => simp [tagLoop, specTagOf]
  | int n => simp [tagLoop, specTagOf]
  | str s => simp [tagLoop, specTagOf]
  | arr xs => simp [tagLoop, specTagOf]

theorem tagLoop_eq (source : String) (items : List Json) (acc : List TagEntry) :
    tagLoop source items acc = acc ++ items.filterMap (specTagOf source) := by
  induction items generalizing acc with
  | nil => simp [tagLoop]
  | cons item rest ih =>
    rw [tagLoop_cons_eq, ih, List.filterMap_cons]
    cases h : specTagOf source item <;> simp [h]

theorem creditLoop_cons_eq (item : Json) (rest : List Json) (acc : List String) :
    creditLoop (item :: rest) acc = creditLoop rest (acc ++ specCreditNames item) := by
  cases item with
  | obj kvs =>
    simp only [creditLoop, specCreditNames]
    rw [nameAppend_eq]
    cases hart : jlookup kvs "artist" with
    | none => simp
    | some v =>
      cases v <;> simp [nameAppend_eq]
  | null => simp [creditLoop, specCreditNames]
  | bool b => simp [creditLoop, specCreditNames]
  | int n => simp [creditLoop, specCreditNames]
  | str s => simp [creditLoop, specCreditNames]
  | arr xs => simp [creditLoop, specCreditNames]

theorem creditLoop_eq (items : List Json) (acc : List String) :
    creditLoop items acc = acc ++ items.flatMap specCreditNames := by
  induction items generalizing acc with
  | nil => simp [creditLoop]
  | cons item rest ih =>
    rw [creditLoop_cons_eq, ih, List.flatMap_cons, List.append_assoc]

theorem dedupLoop_snd (names : List String) (seen out : List String) :
    (dedupLoop names (seen, out)).2 = out ++ specDedupCI seen names := by
  induction names generalizing seen out with
  | nil => simp [dedupLoop, specDedupCI]
  | cons n rest ih =>
    simp only [dedupLoop, specDedupCI]
    by_cases h : seen.contains (pyCasefold n)
    · simp only [h, if_true, ih]
    · simp only [h, if_false, ih, Bool.false_eq_true]
      simp

/-! ## Dict lemmas for the merged token set (claim C2) -/

theorem jlookup_append (x y : JObj) (k : String) :
    jlookup (x ++ y) k = (jlookup x k).orElse (fun _ => jlookup y k) := by
  induction x with
  | nil => simp [jlookup, Option.orElse]
  | cons kv x ih =>
    simp only [List.cons_append, jlookup]
    by_cases hk : kv.1 = k
    · simp [hk, Option.orElse]
    · simp [hk, ih]

theorem jlookup_merge_mapped (a b : JObj) (k : String) :
    jlookup (a.map (fun kv => (kv.1, (jlookup b kv.1).getD kv.2))) k =
      (jlookup a k).map (fun v => (jlookup b k).getD v) := by
  induction a with
  | nil => simp [jlookup]
  | cons kv a ih =>
    simp only [List.map_cons, jlookup]
    by_cases hk : kv.1 = k
    · subst hk; simp
    · simp [hk, ih]

theorem jlookup_filter_keys (a b : JObj) (k : String) :
    jlookup (b.filter (fun kv => (jlookup a kv.1).isNone)) k =
      if (jlookup a k).isNone then jlookup b k else none := by
  induction b with
  | nil => simp [jlookup]
  | cons kv b ih =>
    simp only [List.filter_cons]
    by_cases hf : (jlookup a kv.1).isNone
    · rw [if_pos (by simpa using hf)]
      simp only [jlookup]
      by_cases hk : kv.1 = k
      · subst hk; simp [hf]
      · simp [hk, ih]
    · rw [if_neg (by simpa using hf)]
      rw [ih]
      by_cases hk : kv.1 = k
      · subst hk
        simp only [jlookup, if_pos rfl]
        simp [hf]
      · simp [jlookup, hk]

theorem jlookup_mergeDicts (a b : JObj) (k : String) :
    jlookup (mergeDicts a b) k = (jlookup b k).orElse (fun _ => jlookup a k) := by
  unfold mergeDicts
  rw [jlookup_append, jlookup_merge_mapped, jlookup_filter_keys]
  cases ha : jlookup a k <;> cases hb : jlookup b k <;> simp [Option.orElse]

theorem jlookup_map_setKey (d : JObj) (k : String) (v : Json) (k' : String) :
    jlookup (d.map (fun kv => if kv.1 = k then (k, v) else kv)) k' =
      if k' = k then (if (jlookup d k).isSome then some v else none)
      else jlookup d k' := by
  induction d with
  | nil => simp [jlookup]
  | cons kv d ih =>
    simp only [List.map_cons, jlookup]
    by_cases h1 : kv.1 = k
    · rw [if_pos h1]
      by_cases h3 : k' = k
      · subst h3
        simp [jlookup, h1]
      · have hkk : k ≠ k' := fun h => h3 h.symm
        have hkv : kv.1 ≠ k' := by rw [h1]; exact hkk
        simp only [jlookup, if_neg hkk, if_neg h3, if_neg hkv, ih]
    · rw [if_neg h1]
      by_cases h2 : kv.1 = k'
      · by_cases h3 : k' = k
        · exact absurd (h2.trans h3) h1
        · simp only [jlookup, if_pos h2, if_neg h3]
      · simp only [jlookup, if_neg h2, ih]
        by_cases h3 : k' = k
        · subst h3
          simp [jlookup, h1]
        · simp [h3]

theorem jlookup_setKey_self (d : JObj) (k : String) (v : Json) :
    jlookup (setKey d k v) k = some v := by
  unfold setKey
  by_cases h : (jlookup d k).isSome
  · rw [if_pos h, jlookup_map_setKey, if_pos rfl, if_pos h]
  · rw [if_neg h, jlookup_append]
    have hn : jlookup d k = none := by
      cases hd : jlookup d k
      · rfl
      · rw [hd] at h; simp at h
    rw [hn]
    simp [jlookup, Option.orElse]

theorem jlookup_setKey_ne (d : JObj) (k : String) (v : Json) (k' : String) (h : k' ≠ k) :
    jlookup (setKey d k v) k' = jlookup d k' := by
  unfold setKey
  by_cases hs : (jlookup d k).isSome
  · rw [if_pos hs, jlookup_map_setKey, if_neg h]
  · rw [if_neg hs, jlookup_append]
    cases hd : jlookup d k'
    · simp [hd, Option.orElse, jlookup, Ne.symm h]
    · simp [hd, Option.orElse]

/-! ## Claim theorems -/

/-- Claim C6: a row is served from cache (no external call is made) iff
`now ≤ expires_at` or `now ≤ backoff_until`; in particular a row past
expiry but within its backoff window is still a hit, and a missing row
is never usable.  The third conjunct ties usability to the features
stage: with a non-empty key, no external call is consumed iff the first
cache read was usable. -/
theorem C6_cache_usable_iff :
    (∀ (α : Type) (row : Option (CacheRow α)) (now : Int),
      _is_cache_usable row now = true ↔
        ∃ r, row = some r ∧ (now ≤ r.expires_at ∨ now ≤ r.backoff_until)) ∧
    (∀ (α : Type) (now : Int), _is_cache_usable (none : Option (CacheRow α)) now = false) ∧
    (∀ mbid cached_row now fetch cached_row2 now2,
      _normalize_mbid mbid ≠ "" →
      ((get_track_features mbid cached_row now fetch cached_row2 now2).2.2 = false ↔
        _is_cache_usable cached_row now = true)) := by
  refine ⟨?_, ?_, ?_⟩
  · intro α row now
    cases row with
    | none => simp [_is_cache_usable]
    | some r => simp [_is_cache_usable]
  · intro α now
    rfl
  · intro mbid cached_row now fetch cached_row2 now2 hne
    unfold get_track_features
    rw [if_neg hne]
    by_cases hu : _is_cache_usable cached_row now = true
    · rw [if_pos hu]
      simp [hu]
    · rw [if_neg hu]
      simp only [Bool.not_eq_true] at hu
      cases fetch with
      | error e => cases cached_row2 <;> simp [hu]
      | ok recordingOpt =>
        cases recordingOpt with
        | none => simp [hu]
        | some recording =>
          by_cases hre : recording.isEmpty = true
          · simp [hu, hre]
          · simp [hu, hre]

/-- Claim C6 witness: a row whose expiry lies ahead is usable; one past
expiry but inside its backoff window is too; and on a usable row the
features stage consumes no external call. -/
theorem C6_cache_usable_iff_witness :
    _is_cache_usable (some (⟨some "US1", 0, 10, 0⟩ : CacheRow (Option String))) 5 = true ∧
    _is_cache_usable (some (⟨some "US1", 0, 10, 50⟩ : CacheRow (Option String))) 40 = true ∧
    _is_cache_usable (none : Option (CacheRow (Option String))) 5 = false ∧
    (get_track_features "mbid-1" (some ⟨missingSentinel, 0, 10, 0⟩) 5
        (.error (.lookupError ⟨some 503, "MusicBrainz request failed"⟩)) none 5).2.2 = false := by
  refine ⟨?_, ?_, ?_, ?_⟩
  · exact (C6_cache_usable_iff.1 (Option String) _ 5).mpr ⟨_, rfl, Or.inl (by decide)⟩
  · exact (C6_cache_usable_iff.1 (Option String) _ 40).mpr ⟨_, rfl, Or.inr (by decide)⟩
  · exact C6_cache_usable_iff.2.1 (Option String) 5
  · exact (C6_cache_usable_iff.2.2 "mbid-1" (some ⟨missingSentinel, 0, 10, 0⟩) 5
      (.error (.lookupError ⟨some 503, "MusicBrainz request failed"⟩)) none 5
      (by decide)).mpr (by decide)

/-- Claim C5 counterexample: a 403 error response yields
`auth_error = false`, although the claim demands `auth_error = true` for
status 403. -/
theorem C5_counterexample :
    (_spotify_http_error 403 none).auth_error = false ∧ (403 : Int) ≠ 401 := by
  exact ⟨rfl, by decide⟩

/-- Claim C5 (amended): for every provider-API HTTP error response, the
typed error carries `auth_error = true` exactly when the status code is
401; 403 and all other statuses yield `auth_error = false`. -/
theorem C5_auth_error_iff_401 (code : Int) (payload : Option Json) :
    (_spotify_http_error code payload).auth_error = true ↔ code = 401 := by
  unfold _spotify_http_error
  by_cases h : code = 401
  · simp [h]
  · simp [h]

/-- Claim C7 counterexample: the missing-user-agent configuration error
(`RuntimeError`) raised inside the identity stage is not surfaced to the
caller — the stage returns a normal absence result (and no cache write),
although the claim demands the error be surfaced immediately. -/
theorem C7_counterexample :
    mbid_from_isrc "USABC1234567" none 0
      (.error (.runtimeError "MUSICBRAINZ_USER_AGENT is required")) none 0 =
      (.ok none, .noWrite, true) := rfl

/-- Claim C7 (amended): the configuration error (missing metadata-DB
identifying header) is caught by the identity stage like any external
lookup failure: the stage follows the cache-backoff-or-unknown path
(backoff extended and stale value served when a row exists, absence
otherwise), never surfaces the error, and records no cache value. -/
theorem C7_config_error_backoff_path (isrc : String)
    (cached_row : Option (CacheRow (Option String))) (now : Int) (msg : String)
    (cached_row2 : Option (CacheRow (Option String))) (now2 : Int)
    (hne : _normalize_isrc isrc ≠ "")
    (hmiss : _is_cache_usable cached_row now = false) :
    mbid_from_isrc isrc cached_row now (.error (.runtimeError msg)) cached_row2 now2 =
      match cached_row2 with
      | some r => (.ok r.value, .setBackoff (now2 + ERROR_BACKOFF_SECONDS), true)
      | none => (.ok none, .noWrite, true) := by
  unfold mbid_from_isrc
  rw [if_neg hne, if_neg (by simp [hmiss])]

/-- Claim C7 witness: concrete runs of the amended statement, with and
without a (stale) cached row. -/
theorem C7_config_error_backoff_path_witness :
    mbid_from_isrc "usabc1234567" (some ⟨some "mb-1", 0, 5, 0⟩) 100
      (.error (.runtimeError "MUSICBRAINZ_USER_AGENT is required")) (some ⟨some "mb-1", 0, 5, 0⟩) 100 =
      (.ok (some "mb-1"), .setBackoff (100 + ERROR_BACKOFF_SECONDS), true) ∧
    mbid_from_isrc "usabc1234567" none 0
      (.error (.runtimeError "MUSICBRAINZ_USER_AGENT is required")) none 0 =
      (.ok none, .noWrite, true) := by
  constructor
  · exact C7_config_error_backoff_path "usabc1234567" (some ⟨some "mb-1", 0, 5, 0⟩) 100
      "MUSICBRAINZ_USER_AGENT is required" (some ⟨some "mb-1", 0, 5, 0⟩) 100
      (by decide) (by decide)
  · exact C7_config_error_backoff_path "usabc1234567" none 0
      "MUSICBRAINZ_USER_AGENT is required" none 0 (by decide) (by decide)

/-- Claim C1: in each of the three resolution stages, when the external
lookup fails the stage re-reads its cache; if a row exists the stage
extends its `backoff_until` (to `now + ERROR_BACKOFF_SECONDS`) and
returns the row's possibly stale value, and if no row exists it returns
absence; in both cases the stage returns normally (`.ok`), never an
exception. -/
theorem C1_failure_backoff_or_unknown :
    (∀ tid row1 now1 e row2 now2,
      pyStrip tid ≠ "" →
      _is_cache_usable row1 now1 = false →
      get_isrc_from_spotify_track tid row1 now1 (.error e) row2 now2 =
        match row2 with
        | some r => (.ok r.value, .setBackoff (now2 + ERROR_BACKOFF_SECONDS), true)
        | none => (.ok none, .noWrite, true)) ∧
    (∀ isrc row1 now1 e row2 now2,
      _normalize_isrc isrc ≠ "" →
      _is_cache_usable row1 now1 = false →
      mbid_from_isrc isrc row1 now1 (.error e) row2 now2 =
        match row2 with
        | some r => (.ok r.value, .setBackoff (now2 + ERROR_BACKOFF_SECONDS), true)
        | none => (.ok none, .noWrite, true)) ∧
    (∀ mbid row1 now1 e row2 now2,
      _normalize_mbid mbid ≠ "" →
      _is_cache_usable row1 now1 = false →
      get_track_features mbid row1 now1 (.error e) row2 now2 =
        match row2 with
        | some r => (.ok (_decode_track_features_row r.value),
            .setBackoff (now2 + ERROR_BACKOFF_SECONDS), true)
        | none => (.ok none, .noWrite, true)) := by
  refine ⟨?_, ?_, ?_⟩
  · intro tid row1 now1 e row2 now2 hne hmiss
    unfold get_isrc_from_spotify_track
    rw [if_neg hne, if_neg (by simp [hmiss])]
  · intro isrc row1 now1 e row2 now2 hne hmiss
    unfold mbid_from_isrc
    rw [if_neg hne, if_neg (by simp [hmiss])]
  · intro mbid row1 now1 e row2 now2 hne hmiss
    unfold get_track_features
    rw [if_neg hne, if_neg (by simp [hmiss])]

/-- Claim C1 witness: concrete failure runs of each stage, one with a
stale cached row (stale value served, backoff extended) and one with no
row (absence returned). -/
theorem C1_failure_backoff_or_unknown_witness :
    get_isrc_from_spotify_track "track-123" none 0
      (.error ⟨502, "Spotify API unavailable", false⟩) (some ⟨some "USABC1234567", 0, 5, 0⟩) 100 =
      (.ok (some "USABC1234567"), .setBackoff (100 + ERROR_BACKOFF_SECONDS), true) ∧
    mbid_from_isrc "USABC1234567" none 0
      (.error (.lookupError ⟨none, "MusicBrainz unavailable"⟩)) none 0 =
      (.ok none, .noWrite, true) ∧
    get_track_features "mbid-1" none 0
      (.error (.lookupError ⟨some 503, "MusicBrainz request failed"⟩))
      (some ⟨⟨some (.arr []), some (.obj [("artists", .arr [])])⟩, 0, 5, 0⟩) 100 =
      (.ok (some (.arr [], .obj [("artists", .arr [])])),
        .setBackoff (100 + ERROR_BACKOFF_SECONDS), true) := by
  refine ⟨?_, ?_, ?_⟩
  · exact C1_failure_backoff_or_unknown.1 "track-123" none 0
      ⟨502, "Spotify API unavailable", false⟩ (some ⟨some "USABC1234567", 0, 5, 0⟩) 100
      (by decide) (by decide)
  · exact C1_failure_backoff_or_unknown.2.1 "USABC1234567" none 0
      (.lookupError ⟨none, "MusicBrainz unavailable"⟩) none 0 (by decide) (by decide)
  · exact C1_failure_backoff_or_unknown.2.2 "mbid-1" none 0
      (.lookupError ⟨some 503, "MusicBrainz request failed"⟩)
      (some ⟨⟨some (.arr []), some (.obj [("artists", .arr [])])⟩, 0, 5, 0⟩) 100
      (by decide) (by decide)

/-- Claim C8: a negative features result is persisted as the sentinel
row, which is distinct from any really-extracted feature set (no
extracted metadata carries a `__missing__` key); decoding the sentinel
yields absence rather than an empty-but-present feature set; and
`get_track_features` on a usable sentinel row returns absence without
consuming an external call.  The last conjunct shows the sentinel being
upserted with the negative TTL on a fresh negative result. -/
theorem C8_negative_sentinel :
    _decode_track_features_row missingSentinel = none ∧
    (∀ recording : JObj,
      jGetField (encodeMetadata (_extract_track_features recording).2) "__missing__" = none ∧
      _decode_track_features_row
        ⟨some (encodeTags (_extract_track_features recording).1),
         some (encodeMetadata (_extract_track_features recording).2)⟩ =
        some (encodeTags (_extract_track_features recording).1,
          encodeMetadata (_extract_track_features recording).2)) ∧
    (∀ mbid row now fetch row2 now2 (r : CacheRow FeaturesRowData),
      _normalize_mbid mbid ≠ "" →
      row = some r →
      r.value = missingSentinel →
      _is_cache_usable row now = true →
      get_track_features mbid row now fetch row2 now2 = (.ok none, .noWrite, false)) ∧
    (∀ mbid row1 now1 row2 now2,
      _normalize_mbid mbid ≠ "" →
      _is_cache_usable row1 now1 = false →
      get_track_features mbid row1 now1 (.ok none) row2 now2 =
        (.ok none, .upsert missingSentinel now2 (now2 + NEGATIVE_TTL_SECONDS), true)) := by
  refine ⟨rfl, ?_, ?_, ?_⟩
  · intro recording
    constructor
    · simp [encodeMetadata, jGetField, jlookup]
    · simp [_decode_track_features_row, encodeTags, encodeMetadata, Json.isArr, Json.isObj,
        isPyTrue, jGetField, jlookup]
  · intro mbid row now fetch row2 now2 r hne hrow hval husable
    subst hrow
    unfold get_track_features
    rw [if_neg hne, if_pos husable]
    simp only [Option.bind, hval]
    rfl
  · intro mbid row1 now1 row2 now2 hne hmiss
    unfold get_track_features
    rw [if_neg hne, if_neg (by simp [hmiss])]

/-- Claim C8 witness: the sentinel decodes to absence; a concrete
extraction (with empty tags and metadata fields) still decodes to a
present value; a usable sentinel row short-circuits the stage; a fresh
negative result upserts the sentinel. -/
theorem C8_negative_sentinel_witness :
    _decode_track_features_row missingSentinel = none ∧
    _decode_track_features_row
      ⟨some (encodeTags (_extract_track_features [("id", .str "mbid-1")]).1),
       some (encodeMetadata (_extract_track_features [("id", .str "mbid-1")]).2)⟩ =
      some (encodeTags (_extract_track_features [("id", .str "mbid-1")]).1,
        encodeMetadata (_extract_track_features [("id", .str "mbid-1")]).2) ∧
    get_track_features "mbid-1" (some ⟨missingSentinel, 0, 10, 0⟩) 5
      (.ok (some [("id", .str "mbid-1")])) none 5 = (.ok none, .noWrite, false) ∧
    get_track_features "mbid-1" none 0 (.ok none) none 0 =
      (.ok none, .upsert missingSentinel 0 (0 + NEGATIVE_TTL_SECONDS), true) := by
  refine ⟨C8_negative_sentinel.1, (C8_negative_sentinel.2.1 [("id", .str "mbid-1")]).2, ?_, ?_⟩
  · exact C8_negative_sentinel.2.2.1 "mbid-1" (some ⟨missingSentinel, 0, 10, 0⟩) 5
      (.ok (some [("id", .str "mbid-1")])) none 5 ⟨missingSentinel, 0, 10, 0⟩
      (by decide) rfl rfl (by decide)
  · exact C8_negative_sentinel.2.2.2 "mbid-1" none 0 none 0 (by decide) (by decide)

/-- Claim C10: decoding a stored track-features row is total: an
unparseable cell decodes to absence instead of raising; non-list tags
decode as the empty list and non-dict metadata as an empty mapping; and
`get_track_features` always returns normally (`.ok`), in particular it
never raises on a corrupt cached row. -/
theorem C10_decode_total :
    (∀ m, _decode_track_features_row ⟨none, m⟩ = none) ∧
    (∀ t, _decode_track_features_row ⟨t, none⟩ = none) ∧
    (∀ j m, j.isArr = false →
      _decode_track_features_row ⟨some j, some m⟩ =
        _decode_track_features_row ⟨some (.arr []), some m⟩) ∧
    (∀ t j, j.isObj = false →
      _decode_track_features_row ⟨some t, some j⟩ =
        _decode_track_features_row ⟨some t, some (.obj [])⟩) ∧
    (∀ mbid row now fetch row2 now2,
      ∃ v, (get_track_features mbid row now fetch row2 now2).1 = Except.ok v) := by
  refine ⟨?_, ?_, ?_, ?_, ?_⟩
  · intro m; cases m <;> rfl
  · intro t; cases t <;> rfl
  · intro j m hj
    show (if isPyTrue (jGetField (if m.isObj = true then m else Json.obj []) "__missing__") = true
        then none
        else some ((if j.isArr = true then j else Json.arr []),
          (if m.isObj = true then m else Json.obj []))) =
      (if isPyTrue (jGetField (if m.isObj = true then m else Json.obj []) "__missing__") = true
        then none
        else some (Json.arr [], (if m.isObj = true then m else Json.obj [])))
    rw [hj]
    simp
  · intro t j hj
    show (if isPyTrue (jGetField (if j.isObj = true then j else Json.obj []) "__missing__") = true
        then none
        else some ((if t.isArr = true then t else Json.arr []),
          (if j.isObj = true then j else Json.obj []))) =
      (if isPyTrue (jGetField (Json.obj []) "__missing__") = true
        then none
        else some ((if t.isArr = true then t else Json.arr []), Json.obj []))
    rw [hj]
    simp
  · intro mbid row now fetch row2 now2
    unfold get_track_features
    by_cases h1 : _normalize_mbid mbid = ""
    · rw [if_pos h1]; exact ⟨none, rfl⟩
    · rw [if_neg h1]
      by_cases h2 : _is_cache_usable row now = true
      · rw [if_pos h2]; exact ⟨_, rfl⟩
      · rw [if_neg h2]
        cases fetch with
        | error e =>
          cases row2 with
          | some r => exact ⟨_, rfl⟩
          | none => exact ⟨_, rfl⟩
        | ok recordingOpt =>
          cases recordingOpt with
          | none => exact ⟨_, rfl⟩
          | some recording =>
            by_cases hre : recording.isEmpty = true
            · exact ⟨none, by simp [hre]⟩
            · exact ⟨some (encodeTags (_extract_track_features recording).1,
                encodeMetadata (_extract_track_features recording).2), by simp [hre]⟩

/-- Claim C10 witness: corrupt cells decode to absence, a non-list tags
cell is sanitized to the empty list, a non-dict metadata cell to an
empty mapping, and the stage returns normally on a usable corrupt row. -/
theorem C10_decode_total_witness :
    _decode_track_features_row ⟨none, some (.obj [])⟩ = none ∧
    _decode_track_features_row ⟨some (.int 7), some (.obj [("artists", .arr [])])⟩ =
      _decode_track_features_row ⟨some (.arr []), some (.obj [("artists", .arr [])])⟩ ∧
    _decode_track_features_row ⟨some (.arr []), some (.str "oops")⟩ =
      _decode_track_features_row ⟨some (.arr []), some (.obj [])⟩ ∧
    ∃ v, (get_track_features "mbid-1" (some ⟨⟨none, none⟩, 0, 10, 0⟩) 5
      (.ok none) none 5).1 = Except.ok v := by
  refine ⟨C10_decode_total.1 (some (.obj [])), ?_, ?_, ?_⟩
  · exact C10_decode_total.2.2.1 (.int 7) (.obj [("artists", .arr [])]) rfl
  · exact C10_decode_total.2.2.2.1 (.arr []) (.str "oops") rfl
  · exact C10_decode_total.2.2.2.2 "mbid-1" (some ⟨⟨none, none⟩, 0, 10, 0⟩) 5 (.ok none) none 5

/-- Claim C4 counterexample: the direct lookup fails with status 503 (a
definitive failure other than 404), the fallback succeeds and yields an
empty recordings array — no results — yet the 503 failure is not
surfaced: the lookup returns a normal absence. -/
theorem C4_counterexample :
    _lookup_recording_by_mbid "mbid-1"
      (.error (.lookupError ⟨some 503, "MusicBrainz request failed"⟩))
      (.ok [("recordings", .arr [])]) = .ok none ∧ (503 : Int) ≠ 404 := by
  exact ⟨rfl, by decide⟩

/-- Claim C4 (amended): when the direct lookup fails with 404 (or with
no status at all), a fallback payload without a recordings array yields
genuine not-found; every other definitive failure status is surfaced
when the fallback payload lacks a recordings array; but when the
fallback yields a recordings array — even an empty one — the
best-candidate selection over it (possibly absence) is returned
instead of the direct-lookup failure. -/
theorem C4_direct_failure_vs_fallback :
    (∀ mbid s msg fp,
      (∀ recs, jlookup fp "recordings" ≠ some (.arr recs)) → s ≠ 404 →
      _lookup_recording_by_mbid mbid (.error (.lookupError ⟨some s, msg⟩)) (.ok fp) =
        .error (.lookupError ⟨some s, msg⟩)) ∧
    (∀ mbid msg fp,
      (∀ recs, jlookup fp "recordings" ≠ some (.arr recs)) →
      _lookup_recording_by_mbid mbid (.error (.lookupError ⟨some 404, msg⟩)) (.ok fp) =
        .ok none) ∧
    (∀ mbid msg fp,
      (∀ recs, jlookup fp "recordings" ≠ some (.arr recs)) →
      _lookup_recording_by_mbid mbid (.error (.lookupError ⟨none, msg⟩)) (.ok fp) = .ok none) ∧
    (∀ mbid e fp recs,
      jlookup fp "recordings" = some (.arr recs) →
      _lookup_recording_by_mbid mbid (.error e) (.ok fp) =
        .ok (_pick_best_recording recs (some mbid))) := by
  refine ⟨?_, ?_, ?_, ?_⟩
  · intro mbid s msg fp hnl hs
    have h0 : _lookup_recording_by_mbid mbid (.error (.lookupError ⟨some s, msg⟩)) (.ok fp) =
        _fallback_payload_result mbid (some (.lookupError ⟨some s, msg⟩)) fp := rfl
    rw [h0]
    unfold _fallback_payload_result
    cases hrec : jlookup fp "recordings" with
    | none => simp [hs]
    | some v =>
      cases v with
      | arr recs => exact absurd hrec (hnl recs)
      | null => simp [hs]
      | bool b => simp [hs]
      | int n => simp [hs]
      | str st => simp [hs]
      | obj kvs => simp [hs]
  · intro mbid msg fp hnl
    have h0 : _lookup_recording_by_mbid mbid (.error (.lookupError ⟨some 404, msg⟩)) (.ok fp) =
        _fallback_payload_result mbid (some (.lookupError ⟨some 404, msg⟩)) fp := rfl
    rw [h0]
    unfold _fallback_payload_result
    cases hrec : jlookup fp "recordings" with
    | none => rfl
    | some v =>
      cases v with
      | arr recs => exact absurd hrec (hnl recs)
      | null => rfl
      | bool b => rfl
      | int n => rfl
      | str st => rfl
      | obj kvs => rfl
  · intro mbid msg fp hnl
    have h0 : _lookup_recording_by_mbid mbid (.error (.lookupError ⟨none, msg⟩)) (.ok fp) =
        _fallback_payload_result mbid (some (.lookupError ⟨none, msg⟩)) fp := rfl
    rw [h0]
    unfold _fallback_payload_result
    cases hrec : jlookup fp "recordings" with
    | none => rfl
    | some v =>
      cases v with
      | arr recs => exact absurd hrec (hnl recs)
      | null => rfl
      | bool b => rfl
      | int n => rfl
      | str st => rfl
      | obj kvs => rfl
  · intro mbid e fp recs hrec
    have h0 : _lookup_recording_by_mbid mbid (.error e) (.ok fp) =
        _fallback_payload_result mbid (some e) fp := rfl
    rw [h0]
    unfold _fallback_payload_result
    rw [hrec]

/-- Claim C4 witness: concrete runs of the amended statement — a 503
direct failure is surfaced over a recordings-less fallback payload, a
404 one is not, and an empty recordings array turns a 503 direct
failure into a normal absence. -/
theorem C4_direct_failure_vs_fallback_witness :
    _lookup_recording_by_mbid "mbid-1"
      (.error (.lookupError ⟨some 503, "MusicBrainz request failed"⟩)) (.ok []) =
      .error (.lookupError ⟨some 503, "MusicBrainz request failed"⟩) ∧
    _lookup_recording_by_mbid "mbid-1"
      (.error (.lookupError ⟨some 404, "MusicBrainz request failed"⟩)) (.ok []) = .ok none ∧
    _lookup_recording_by_mbid "mbid-1"
      (.error (.lookupError ⟨some 503, "MusicBrainz request failed"⟩))
      (.ok [("recordings", .arr [])]) = .ok (_pick_best_recording [] (some "mbid-1")) := by
  refine ⟨?_, ?_, ?_⟩
  · exact C4_direct_failure_vs_fallback.1 "mbid-1" 503 "MusicBrainz request failed" []
      (fun recs h => Option.noConfusion h) (by decide)
  · exact C4_direct_failure_vs_fallback.2.1 "mbid-1" "MusicBrainz request failed" []
      (fun recs h => Option.noConfusion h)
  · exact C4_direct_failure_vs_fallback.2.2.2 "mbid-1"
      (.lookupError ⟨some 503, "MusicBrainz request failed"⟩) [("recordings", .arr [])] [] rfl

/-- Claim C9: feature extraction refines the spec's wording — the tag
list is the union of the `tags` and `genres` arrays in that order, each
conforming item mapped to `{trimmed non-empty name, count coerced with
default 0, source tag/genre}`, and the artist list is drawn from both
the flat and the nested artist-object name of each credit entry,
deduplicated case-insensitively with first-seen order preserved. -/
theorem C9_extract_refines_spec (recording : JObj) :
    (_extract_track_features recording).1 = specTags recording ∧
    (_extract_track_features recording).2.artists = specArtists recording := by
  constructor
  · show tagLoop "genre" (listItems (jlookup recording "genres"))
        (tagLoop "tag" (listItems (jlookup recording "tags")) []) = specTags recording
    rw [tagLoop_eq, tagLoop_eq]
    unfold specTags
    simp
  · show (dedupLoop (creditLoop (listItems (jlookup recording "artist-credit")) []) ([], [])).2 =
        specArtists recording
    rw [creditLoop_eq, dedupLoop_snd]
    unfold specArtists
    simp

/-- Claim C3: best-candidate selection — an exact expected-identity
match is returned when present; otherwise (no match, or no expected
identity) a candidate whose comparison key (numeric score, id string) is
maximal is returned, and with pairwise-distinct keys the choice is
independent of insertion order; non-numeric scores count as 0; an empty
dict-candidate list yields absence. -/
theorem C3_pick_best :
    (∀ recordings e c, e ≠ "" →
      (recordings.filterMap asObj).find? (fun c => jsonEqStr (pyGet c "id") e) = some c →
      _pick_best_recording recordings (some e) = some c) ∧
    (∀ recordings e, e ≠ "" →
      (recordings.filterMap asObj).find? (fun c => jsonEqStr (pyGet c "id") e) = none →
      _pick_best_recording recordings (some e) = _pick_best_recording recordings none) ∧
    (∀ recordings, recordings.filterMap asObj ≠ [] →
      ∃ b, _pick_best_recording recordings none = some b ∧
        b ∈ recordings.filterMap asObj ∧
        ∀ c ∈ recordings.filterMap asObj,
          sortKeyLt (recordingSortKey b) (recordingSortKey c) = false) ∧
    (∀ l₁ l₂, l₁.Perm l₂ → ((l₁.filterMap asObj).map recordingSortKey).Nodup →
      _pick_best_recording l₁ none = _pick_best_recording l₂ none) ∧
    (∀ recordings expected, recordings.filterMap asObj = [] →
      _pick_best_recording recordings expected = none) ∧
    (∀ (item : JObj) v, jlookup item "score" = some v → pyToInt v = none →
      _recording_score item = 0) := by
  refine ⟨pick_best_exact, pick_best_no_match, pick_best_none_spec, pick_best_perm, ?_, ?_⟩
  · intro recordings expected h
    unfold _pick_best_recording
    rw [h]
  · intro item v h hv
    simp [_recording_score, pyGetD, pyIntOr0, h, hv]

/-- Claim C3 witness: the spec's own examples — score 100 beats score
80; equal scores are tie-broken towards the lexicographically larger id
(whatever the insertion order); an exact expected-id match wins over a
higher score; a candidate list with no dicts yields absence. -/
theorem C3_pick_best_witness :
    _pick_best_recording [.obj [("id", .str "A"), ("score", .int 80)],
        .obj [("id", .str "B"), ("score", .int 100)]] none =
      some [("id", .str "B"), ("score", .int 100)] ∧
    _pick_best_recording [.obj [("id", .str "A"), ("score", .int 80)],
        .obj [("id", .str "B"), ("score", .int 80)]] none =
      some [("id", .str "B"), ("score", .int 80)] ∧
    _pick_best_recording [.obj [("id", .str "A"), ("score", .int 80)],
        .obj [("id", .str "B"), ("score", .int 80)]] none =
      _pick_best_recording [.obj [("id", .str "B"), ("score", .int 80)],
        .obj [("id", .str "A"), ("score", .int 80)]] none ∧
    _pick_best_recording [.obj [("id", .str "A"), ("score", .int 80)],
        .obj [("id", .str "B"), ("score", .int 100)]] (some "A") =
      some [("id", .str "A"), ("score", .int 80)] ∧
    _pick_best_recording [.int 3] (some "A") = none := by
  refine ⟨rfl, rfl, ?_, ?_, ?_⟩
  · exact C3_pick_best.2.2.2.1
      [.obj [("id", .str "A"), ("score", .int 80)], .obj [("id", .str "B"), ("score", .int 80)]]
      [.obj [("id", .str "B"), ("score", .int 80)], .obj [("id", .str "A"), ("score", .int 80)]]
      (List.Perm.swap _ _ _) (by decide)
  · exact C3_pick_best.1
      [.obj [("id", .str "A"), ("score", .int 80)], .obj [("id", .str "B"), ("score", .int 100)]]
      "A" [("id", .str "A"), ("score", .int 80)] (by decide) rfl
  · exact C3_pick_best.2.2.2.2.1 [.int 3] (some "A") rfl

theorem strTruthy_eq_some {o : Option Json} {s : String} :
    strTruthy o = some s ↔ o = some (.str s) ∧ s ≠ "" := by
  cases o with
  | none => simp [strTruthy]
  | some v =>
    cases v with
    | str t =>
      by_cases ht : t = ""
      · subst ht
        simp only [strTruthy, if_pos rfl]
        constructor
        · intro h; exact Option.noConfusion h
        · rintro ⟨h1, h2⟩
          injection h1 with h1
          injection h1 with h1
          exact absurd h1.symm h2
      · simp only [strTruthy, if_neg ht]
        constructor
        · intro h
          injection h with h
          subst h
          exact ⟨rfl, ht⟩
        · rintro ⟨h1, h2⟩
          injection h1 with h1
          injection h1 with h1
          rw [h1]
    | null => simp [strTruthy]
    | bool b => simp [strTruthy]
    | int n => simp [strTruthy]
    | arr xs => simp [strTruthy]
    | obj kvs => simp [strTruthy]

theorem merged_token_set_access (token_data refreshed : JObj) (refresh_token new_access : String)
    (hnew : strTruthy (jlookup refreshed "access_token") = some new_access) :
    jlookup (_merged_token_set token_data refreshed refresh_token) "access_token" =
      some (.str new_access) := by
  have hr := (strTruthy_eq_some.mp hnew).1
  unfold _merged_token_set
  by_cases hcase :
      (strTruthy (jlookup (mergeDicts token_data refreshed) "refresh_token")).isNone = true
  · rw [if_pos hcase, jlookup_setKey_ne _ _ _ _ (by decide), jlookup_mergeDicts, hr]
    rfl
  · rw [if_neg hcase, jlookup_mergeDicts, hr]
    rfl

theorem merged_token_set_retains_refresh (token_data refreshed : JObj)
    (refresh_token : String)
    (hrt : strTruthy (jlookup token_data "refresh_token") = some refresh_token)
    (hnone : strTruthy (jlookup refreshed "refresh_token") = none) :
    jlookup (_merged_token_set token_data refreshed refresh_token) "refresh_token" =
      some (.str refresh_token) := by
  unfold _merged_token_set
  by_cases hcase :
      (strTruthy (jlookup (mergeDicts token_data refreshed) "refresh_token")).isNone = true
  · rw [if_pos hcase, jlookup_setKey_self]
  · rw [if_neg hcase, jlookup_mergeDicts]
    cases hr : jlookup refreshed "refresh_token" with
    | none =>
      rw [(strTruthy_eq_some.mp hrt).1]
      rfl
    | some v =>
      exfalso
      apply hcase
      rw [jlookup_mergeDicts, hr]
      rw [hr] at hnone
      show (strTruthy ((some v).orElse fun _ => jlookup token_data "refresh_token")).isNone = true
      rw [show ((some v).orElse fun _ => jlookup token_data "refresh_token") = some v from rfl]
      rw [hnone]
      rfl

/-- Claim C2: a session-scoped request whose first attempt fails with an
authorization failure (status 401) while a usable refresh token is
stored, and whose token-refresh exchange succeeds, performs the
exchange, persists the merged token set (new fields overwriting old;
the prior refresh token retained when the refresh response omits a
usable one), retries the original request exactly once with the new
access token, and returns the second attempt's result; a second
authorization failure on the retry clears the stored token set and
reports not-authorized. -/
theorem C2_refresh_and_retry_once (token_data refreshed : JObj)
    (request_fn : String → Except SpotifyClientError Json)
    (refresh_fn : String → Except SpotifyClientError JObj)
    (access_token refresh_token new_access : String) (e : SpotifyClientError)
    (hnonempty : token_data.isEmpty = false)
    (hat : strTruthy (jlookup token_data "access_token") = some access_token)
    (hfail : request_fn access_token = .error e)
    (h401 : e.status_code = 401)
    (hrt : strTruthy (jlookup token_data "refresh_token") = some refresh_token)
    (hrefresh : refresh_fn refresh_token = .ok refreshed)
    (hnew : strTruthy (jlookup refreshed "access_token") = some new_access) :
    (∀ k, jlookup (mergeDicts token_data refreshed) k =
      (jlookup refreshed k).orElse (fun _ => jlookup token_data k)) ∧
    (strTruthy (jlookup refreshed "refresh_token") = none →
      jlookup (_merged_token_set token_data refreshed refresh_token) "refresh_token" =
        some (.str refresh_token)) ∧
    (∀ v, request_fn new_access = .ok v →
      _request_for_session (some token_data) request_fn refresh_fn =
        (.ok v, [.attempt access_token, .refreshCall refresh_token,
          .storeTokens (_merged_token_set token_data refreshed refresh_token),
          .attempt new_access])) ∧
    (∀ e2, request_fn new_access = .error e2 → e2.status_code = 401 →
      _request_for_session (some token_data) request_fn refresh_fn =
        (.error notAuthorizedError, [.attempt access_token, .refreshCall refresh_token,
          .storeTokens (_merged_token_set token_data refreshed refresh_token),
          .attempt new_access, .clearTokens])) ∧
    (∀ e2, request_fn new_access = .error e2 → e2.status_code ≠ 401 →
      _request_for_session (some token_data) request_fn refresh_fn =
        (.error e2, [.attempt access_token, .refreshCall refresh_token,
          .storeTokens (_merged_token_set token_data refreshed refresh_token),
          .attempt new_access])) := by
  have hm_access : strTruthy (jlookup
      (_merged_token_set token_data refreshed refresh_token) "access_token") = some new_access := by
    rw [merged_token_set_access token_data refreshed refresh_token new_access hnew]
    simp [strTruthy, (strTruthy_eq_some.mp hnew).2]
  refine ⟨fun k => jlookup_mergeDicts token_data refreshed k,
    merged_token_set_retains_refresh token_data refreshed refresh_token hrt, ?_, ?_, ?_⟩
  · intro v hv
    simp only [_request_for_session, hnonempty, Bool.false_eq_true, if_false, hat, hfail, h401,
      hrt, hrefresh, hm_access, hv]
    simp
  · intro e2 hv h2
    simp only [_request_for_session, hnonempty, Bool.false_eq_true, if_false, hat, hfail, h401,
      hrt, hrefresh, hm_access, hv, h2]
    simp
  · intro e2 hv h2
    simp only [_request_for_session, hnonempty, Bool.false_eq_true, if_false, hat, hfail, h401,
      hrt, hrefresh, hm_access, hv]
    simp [h2]

/-- Claim C2 witness: the repository test's scenario — stored tokens
with an expired access token, a first 401, a refresh yielding a new
access token and no refresh token.  The adapter stores the merged set
retaining the old refresh token, attempts exactly twice, and returns
the retry's result; if the retry also fails with 401 the store is
cleared and not-authorized is reported. -/
theorem C2_refresh_and_retry_once_witness :
    _request_for_session
      (some [("access_token", .str "expired-access"), ("refresh_token", .str "refresh-123")])
      (fun t => if t = "new-access" then .ok (.str "profile")
        else .error ⟨401, "Expired token", true⟩)
      (fun _ => .ok [("access_token", .str "new-access"), ("expires_in", .int 3600)]) =
      (.ok (.str "profile"),
        [.attempt "expired-access", .refreshCall "refresh-123",
         .storeTokens [("access_token", .str "new-access"), ("refresh_token", .str "refresh-123"),
           ("expires_in", .int 3600)],
         .attempt "new-access"]) ∧
    _request_for_session
      (some [("access_token", .str "expired-access"), ("refresh_token", .str "refresh-123")])
      (fun _ => .error ⟨401, "Expired token", true⟩)
      (fun _ => .ok [("access_token", .str "new-access"), ("expires_in", .int 3600)]) =
      (.error notAuthorizedError,
        [.attempt "expired-access", .refreshCall "refresh-123",
         .storeTokens [("access_token", .str "new-access"), ("refresh_token", .str "refresh-123"),
           ("expires_in", .int 3600)],
         .attempt "new-access", .clearTokens]) := by
  constructor
  · exact (C2_refresh_and_retry_once
      [("access_token", .str "expired-access"), ("refresh_token", .str "refresh-123")]
      [("access_token", .str "new-access"), ("expires_in", .int 3600)]
      (fun t => if t = "new-access" then .ok (.str "profile")
        else .error ⟨401, "Expired token", true⟩)
      (fun _ => .ok [("access_token", .str "new-access"), ("expires_in", .int 3600)])
      "expired-access" "refresh-123" "new-access" ⟨401, "Expired token", true⟩
      rfl rfl rfl rfl rfl rfl rfl).2.2.1 (.str "profile") rfl
  · exact (C2_refresh_and_retry_once
      [("access_token", .str "expired-access"), ("refresh_token", .str "refresh-123")]
      [("access_token", .str "new-access"), ("expires_in", .int 3600)]
      (fun _ => .error ⟨401, "Expired token", true⟩)
      (fun _ => .ok [("access_token", .str "new-access"), ("expires_in", .int 3600)])
      "expired-access" "refresh-123" "new-access" ⟨401, "Expired token", true⟩
      rfl rfl rfl rfl rfl rfl rfl).2.2.2.1 ⟨401, "Expired token", true⟩ rfl rfl
